import Mathlib

/-!
Shallow embedding of the loader-generation pipeline of the repository
(`app/services/loader_generator.py`, `app/services/openai_client.py`,
`app/utils/files.py`, `app/models/schemas.py`) together with theorems
settling the frozen claims about it.

Texts are modelled as lists of characters (`Str`), matching Python
strings as sequences of code points; slicing `text[:limit]` is
`List.take`, `len` is `List.length`.
-/

namespace ChatGptLoader

/-- Python `str` modelled as a list of characters. -/
abbrev Str := List Char

/-! ## Context budgeter (`loader_generator.py`, lines 65-66 and 138-183) -/

/-- `MAX_CHARS_PER_FILE = 60_000` (loader_generator.py line 65). -/
def MAX_CHARS_PER_FILE : Nat := 60000

/-- `MAX_TOTAL_CHARS = 220_000` (loader_generator.py line 66). -/
def MAX_TOTAL_CHARS : Nat := 220000

/-- `_truncate(text, limit)` (lines 138-141): return the text unchanged
when it fits, else its first `limit` characters, with a flag saying
whether it was cut. -/
def truncate (text : Str) (limit : Nat) : Str × Bool :=
  if text.length ≤ limit then (text, false) else (text.take limit, true)

/-- Python `str.strip()`: drop leading and trailing whitespace. -/
def stripWs (text : Str) : Str :=
  ((text.dropWhile Char.isWhitespace).reverse.dropWhile Char.isWhitespace).reverse

/-- `_normalize_text(text)` (lines 144-145): remove NUL characters, then
strip leading/trailing whitespace. -/
def normalize_text (text : Str) : Str :=
  stripWs (text.filter (fun c => c ≠ '\x00'))

/-- The truncation report assembled in `meta` by `_truncate_inputs`
(lines 151-155).  The per-standard flags are kept positionally, parallel
to the standards list (the Python dict is keyed by filename; for distinct
filenames the two representations agree). -/
structure TruncMeta where
  max_chars_per_file : Nat
  max_total_chars : Nat
  agreement : Bool
  standards : List (Str × Bool)
deriving DecidableEq

/-- `_truncate_inputs(agreement_text, standards)` (lines 148-183):
phase 1 normalizes every text and caps it at `MAX_CHARS_PER_FILE`;
if the capped total fits in `MAX_TOTAL_CHARS` or there are no standards
it stops; otherwise phase 2 re-truncates each standard to
`max(5_000, (MAX_TOTAL_CHARS - len(agreement)) // n)`, OR-ing the
truncation flags. -/
def truncate_inputs (agreement_text : Str) (standards : List (Str × Str)) :
    Str × List (Str × Str) × TruncMeta :=
  let a1 := normalize_text agreement_text
  let ares := truncate a1 MAX_CHARS_PER_FILE
  let a2 := ares.1
  let normStds : List (Str × Str × Bool) :=
    standards.map (fun p => (p.1, truncate (normalize_text p.2) MAX_CHARS_PER_FILE))
  let total := a2.length + (normStds.map (fun p => p.2.1.length)).sum
  if total ≤ MAX_TOTAL_CHARS ∨ normStds = [] then
    (a2, normStds.map (fun p => (p.1, p.2.1)),
      ⟨MAX_CHARS_PER_FILE, MAX_TOTAL_CHARS, ares.2, normStds.map (fun p => (p.1, p.2.2))⟩)
  else
    let remaining_budget := MAX_TOTAL_CHARS - a2.length
    let per_standard_budget := max 5000 (remaining_budget / normStds.length)
    let finals : List (Str × Str × Bool) :=
      normStds.map (fun p =>
        let r := truncate p.2.1 per_standard_budget
        (p.1, r.1, p.2.2 || r.2))
    (a2, finals.map (fun p => (p.1, p.2.1)),
      ⟨MAX_CHARS_PER_FILE, MAX_TOTAL_CHARS, ares.2, finals.map (fun p => (p.1, p.2.2))⟩)

/-! ### Helper lemmas about `truncate` and `normalize_text` -/

theorem truncate_fst_isPre (t : Str) (l : Nat) : (truncate t l).1 <+: t := by
  unfold truncate
  split
  · exact List.prefix_rfl
  · exact List.take_prefix l t

theorem truncate_fst_length_le (t : Str) (l : Nat) : (truncate t l).1.length ≤ l := by
  unfold truncate
  split
  · assumption
  · simpa using Nat.min_le_left l t.length

theorem truncate_fst_length_le_self (t : Str) (l : Nat) : (truncate t l).1.length ≤ t.length := by
  unfold truncate
  split
  · exact le_rfl
  · simpa using Nat.min_le_right l t.length

theorem truncate_of_le {t : Str} {l : Nat} (h : t.length ≤ l) : truncate t l = (t, false) := by
  unfold truncate
  rw [if_pos h]

theorem fst_mk {A B : Type} (a : A) (b : B) : (Prod.mk a b).1 = a := rfl

theorem replicate_congr {A : Type} (n : Nat) {x y : A} (h : x = y) :
    List.replicate n x = List.replicate n y := by rw [h]

theorem snd_mk {A B : Type} (a : A) (b : B) : (Prod.mk a b).2 = b := rfl

theorem dropWhile_replicate_not {p : Char → Bool} {c : Char} (h : p c = false) (n : Nat) :
    (List.replicate n c).dropWhile p = List.replicate n c := by
  cases n with
  | zero => simp
  | succ m => simp [List.replicate_succ, List.dropWhile_cons, h]

theorem stripWs_replicate {c : Char} (h : c.isWhitespace = false) (n : Nat) :
    stripWs (List.replicate n c) = List.replicate n c := by
  simp [stripWs, dropWhile_replicate_not h, List.reverse_replicate]

theorem normalize_text_replicate {c : Char} (h0 : ¬ c = '\x00')
    (h : c.isWhitespace = false) (n : Nat) :
    normalize_text (List.replicate n c) = List.replicate n c := by
  unfold normalize_text
  rw [List.filter_eq_self.mpr, stripWs_replicate h]
  intro a ha
  rw [List.eq_of_mem_replicate ha]
  exact decide_eq_true h0

/-! ### Claims C2, C7, C10 about the budgeter -/

theorem c2_norm_a : normalize_text (List.replicate 60000 'a') = List.replicate 60000 'a' :=
  normalize_text_replicate (c := 'a') (by decide) (by decide) 60000

theorem c2_norm_b : normalize_text (List.replicate 5000 'b') = List.replicate 5000 'b' :=
  normalize_text_replicate (c := 'b') (by decide) (by decide) 5000

theorem c2_tr_a : truncate (List.replicate 60000 'a') MAX_CHARS_PER_FILE =
    (List.replicate 60000 'a', false) :=
  truncate_of_le (by rw [List.length_replicate]; norm_num [MAX_CHARS_PER_FILE])

theorem c2_tr_b : truncate (List.replicate 5000 'b') MAX_CHARS_PER_FILE =
    (List.replicate 5000 'b', false) :=
  truncate_of_le (by rw [List.length_replicate]; norm_num [MAX_CHARS_PER_FILE])

theorem c2_tr_b2 : truncate (List.replicate 5000 'b') 5000 = (List.replicate 5000 'b', false) :=
  truncate_of_le (by rw [List.length_replicate])

/-- Helper naming the per-standard budget recomputed in phase 2 of
`_truncate_inputs` (loader_generator.py lines 172-173). -/
def phase2_budget (a : Str) (stds : List (Str × Str)) : Nat :=
  max 5000
    ((MAX_TOTAL_CHARS - (truncate (normalize_text a) MAX_CHARS_PER_FILE).1.length) / stds.length)

/-- In the oversubscribed case, `_truncate_inputs` re-truncates every
standard to the phase-2 budget and ORs the truncation flags. -/
theorem truncate_inputs_oversub (a : Str) (stds : List (Str × Str))
    (h : ¬ ((truncate (normalize_text a) MAX_CHARS_PER_FILE).1.length +
        ((stds.map (fun p => (p.1, truncate (normalize_text p.2) MAX_CHARS_PER_FILE))).map
          (fun p => p.2.1.length)).sum ≤ MAX_TOTAL_CHARS ∨
        stds.map (fun p => (p.1, truncate (normalize_text p.2) MAX_CHARS_PER_FILE)) = [])) :
    truncate_inputs a stds =
      ((truncate (normalize_text a) MAX_CHARS_PER_FILE).1,
       stds.map (fun p => (p.1,
         (truncate (truncate (normalize_text p.2) MAX_CHARS_PER_FILE).1
           (phase2_budget a stds)).1)),
       ⟨MAX_CHARS_PER_FILE, MAX_TOTAL_CHARS,
        (truncate (normalize_text a) MAX_CHARS_PER_FILE).2,
        stds.map (fun p => (p.1,
          (truncate (normalize_text p.2) MAX_CHARS_PER_FILE).2 ||
            (truncate (truncate (normalize_text p.2) MAX_CHARS_PER_FILE).1
              (phase2_budget a stds)).2))⟩) := by
  simp only [truncate_inputs]
  rw [if_neg h]
  simp only [List.map_map, Function.comp_def, List.length_map, phase2_budget]

theorem truncate_inputs_oversub_fst (a : Str) (stds : List (Str × Str))
    (h : ¬ ((truncate (normalize_text a) MAX_CHARS_PER_FILE).1.length +
        ((stds.map (fun p => (p.1, truncate (normalize_text p.2) MAX_CHARS_PER_FILE))).map
          (fun p => p.2.1.length)).sum ≤ MAX_TOTAL_CHARS ∨
        stds.map (fun p => (p.1, truncate (normalize_text p.2) MAX_CHARS_PER_FILE)) = [])) :
    (truncate_inputs a stds).1 = (truncate (normalize_text a) MAX_CHARS_PER_FILE).1 := by
  rw [truncate_inputs_oversub a stds h]

theorem truncate_inputs_oversub_stds (a : Str) (stds : List (Str × Str))
    (h : ¬ ((truncate (normalize_text a) MAX_CHARS_PER_FILE).1.length +
        ((stds.map (fun p => (p.1, truncate (normalize_text p.2) MAX_CHARS_PER_FILE))).map
          (fun p => p.2.1.length)).sum ≤ MAX_TOTAL_CHARS ∨
        stds.map (fun p => (p.1, truncate (normalize_text p.2) MAX_CHARS_PER_FILE)) = [])) :
    (truncate_inputs a stds).2.1 = stds.map (fun p => (p.1,
      (truncate (truncate (normalize_text p.2) MAX_CHARS_PER_FILE).1 (phase2_budget a stds)).1)) := by
  rw [truncate_inputs_oversub a stds h]

theorem c2_len_a :
    (truncate (normalize_text (List.replicate 60000 'a')) MAX_CHARS_PER_FILE).1.length
      = 60000 := by
  rw [c2_norm_a, c2_tr_a, fst_mk, List.length_replicate]

theorem c2_map1 :
    (List.replicate 33 (['s'], List.replicate 5000 'b') : List (Str × Str)).map
      (fun p => (p.1, truncate (normalize_text p.2) MAX_CHARS_PER_FILE)) =
    (List.replicate 33 (['s'], (List.replicate 5000 'b', false)) : List (Str × Str × Bool)) := by
  rw [List.map_replicate]
  refine replicate_congr 33 ?_
  rw [fst_mk, snd_mk, c2_norm_b, c2_tr_b]

theorem c2_map2 :
    (List.replicate 33 (['s'], (List.replicate 5000 'b', false)) : List (Str × Str × Bool)).map
      (fun p => List.length p.2.1) =
    List.replicate 33 5000 := by
  rw [List.map_replicate]
  refine replicate_congr 33 ?_
  rw [snd_mk, fst_mk, List.length_replicate]

theorem c2_capped_sum :
    (truncate (normalize_text (List.replicate 60000 'a')) MAX_CHARS_PER_FILE).1.length +
      (((List.replicate 33 (['s'], List.replicate 5000 'b') : List (Str × Str)).map (fun p => (p.1, truncate (normalize_text p.2) MAX_CHARS_PER_FILE))).map
        (fun p => p.2.1.length)).sum = 225000 := by
  rw [c2_norm_a, c2_tr_a, fst_mk, List.length_replicate]
  rw [c2_map1, c2_map2, List.sum_replicate, smul_eq_mul]

theorem c2_oversub_cond :
    ¬ ((truncate (normalize_text (List.replicate 60000 'a')) MAX_CHARS_PER_FILE).1.length +
        (((List.replicate 33 (['s'], List.replicate 5000 'b') : List (Str × Str)).map
          (fun p => (p.1, truncate (normalize_text p.2) MAX_CHARS_PER_FILE))).map
          (fun p => p.2.1.length)).sum ≤ MAX_TOTAL_CHARS ∨
      (List.replicate 33 (['s'], List.replicate 5000 'b') : List (Str × Str)).map (fun p => (p.1, truncate (normalize_text p.2) MAX_CHARS_PER_FILE)) = []) := by
  intro hc
  rcases hc with hc | hc
  · rw [c2_capped_sum] at hc
    exact absurd hc (by norm_num [MAX_TOTAL_CHARS])
  · have h2 := congrArg List.length hc
    rw [List.length_map, List.length_nil, List.length_replicate] at h2
    exact absurd h2 (by norm_num)

theorem c2_budget_eq :
    phase2_budget (List.replicate 60000 'a') (List.replicate 33 (['s'], List.replicate 5000 'b') : List (Str × Str))
      = 5000 := by
  rw [phase2_budget]
  rw [c2_norm_a, c2_tr_a, fst_mk, List.length_replicate, List.length_replicate]
  rw [Nat.max_eq_left (by norm_num [MAX_TOTAL_CHARS])]

set_option maxRecDepth 4000 in
/-- C2 (counterexample): with a 60,000-character agreement and 33
standards of 5,000 characters each, the standards list is non-empty and
the per-file-capped lengths sum to 225,000 > 220,000, so the claim
applies, yet the budgeter output also sums to 225,000 > 220,000: the
claimed total ceiling is violated because the proportional budget
(220,000 - 60,000) / 33 = 4,848 is raised to the 5,000-character
floor. -/
theorem c2_total_ceiling_violated :
    (List.replicate 33 (['s'], List.replicate 5000 'b') : List (Str × Str)) ≠ ([] : List (Str × Str)) ∧
    MAX_TOTAL_CHARS <
      (truncate (normalize_text (List.replicate 60000 'a')) MAX_CHARS_PER_FILE).1.length +
        (((List.replicate 33 (['s'], List.replicate 5000 'b') : List (Str × Str)).map (fun p => (p.1, truncate (normalize_text p.2) MAX_CHARS_PER_FILE))).map
          (fun p => p.2.1.length)).sum ∧
    MAX_TOTAL_CHARS <
      (truncate_inputs (List.replicate 60000 'a') (List.replicate 33 (['s'], List.replicate 5000 'b') : List (Str × Str))).1.length +
        ((truncate_inputs (List.replicate 60000 'a') (List.replicate 33 (['s'], List.replicate 5000 'b') : List (Str × Str))).2.1.map (fun p => p.2.length)).sum := by
  refine ⟨?_, ?_, ?_⟩
  · intro h
    have h2 := congrArg List.length h
    rw [List.length_nil, List.length_replicate] at h2
    exact absurd h2 (by norm_num)
  · rw [c2_capped_sum]
    norm_num [MAX_TOTAL_CHARS]
  · have hmap3 :
        (List.replicate 33 (['s'], List.replicate 5000 'b') : List (Str × Str)).map
          (fun p => (p.1,
            (truncate (truncate (normalize_text p.2) MAX_CHARS_PER_FILE).1 5000).1)) =
        (List.replicate 33 (['s'], List.replicate 5000 'b') : List (Str × Str)) := by
      rw [List.map_replicate]
      refine replicate_congr 33 ?_
      rw [fst_mk, snd_mk, c2_norm_b, c2_tr_b, fst_mk, c2_tr_b2, fst_mk]
    have hmap4 :
        (List.replicate 33 (['s'], List.replicate 5000 'b') : List (Str × Str)).map
          (fun p => List.length p.2) =
        List.replicate 33 5000 := by
      rw [List.map_replicate]
      refine replicate_congr 33 ?_
      rw [snd_mk, List.length_replicate]
    rw [truncate_inputs_oversub_fst (List.replicate 60000 'a')
          (List.replicate 33 (['s'], List.replicate 5000 'b') : List (Str × Str)) c2_oversub_cond,
        truncate_inputs_oversub_stds (List.replicate 60000 'a')
          (List.replicate 33 (['s'], List.replicate 5000 'b') : List (Str × Str)) c2_oversub_cond,
        c2_budget_eq]
    rw [c2_len_a, hmap3, hmap4, List.sum_replicate, smul_eq_mul]
    norm_num [MAX_TOTAL_CHARS]

/-- C2 (amended): for every agreement text and list of standards, the
budgeter output satisfies
len(agreement) + sum(len(standards)) ≤ max(220,000, len(agreement) + 5,000 × number of standards):
the 220,000 ceiling holds except that each standard is always granted at
least the 5,000-character floor. -/
theorem truncate_inputs_total_bounded (a : Str) (standards : List (Str × Str)) :
    (truncate_inputs a standards).1.length +
      (((truncate_inputs a standards).2.1).map (fun p => p.2.length)).sum ≤
      max MAX_TOTAL_CHARS ((truncate_inputs a standards).1.length + 5000 * standards.length) := by
  have ha2 : (truncate (normalize_text a) MAX_CHARS_PER_FILE).1.length ≤ MAX_TOTAL_CHARS := by
    calc (truncate (normalize_text a) MAX_CHARS_PER_FILE).1.length
        ≤ MAX_CHARS_PER_FILE := truncate_fst_length_le _ _
      _ ≤ MAX_TOTAL_CHARS := by norm_num [MAX_CHARS_PER_FILE, MAX_TOTAL_CHARS]
  simp only [truncate_inputs]
  split
  · rename_i hc
    dsimp only
    rcases hc with hc | hc
    · refine le_trans ?_ (le_max_left _ _)
      simpa [List.map_map, Function.comp] using hc
    · have hstd : standards = [] := List.map_eq_nil_iff.mp hc
      subst hstd
      simpa using le_trans ha2 (le_max_left _ _)
  · dsimp only
    simp only [List.map_map, List.length_map, Function.comp]
    set A := (truncate (normalize_text a) MAX_CHARS_PER_FILE).1 with hAdef
    set m := standards.length with hm
    set per := max 5000 ((MAX_TOTAL_CHARS - A.length) / m) with hper
    have hsum : ∀ (f : Str × Str → Nat) (hf : ∀ x, f x ≤ per),
        (standards.map f).sum ≤ m * per := by
      intro f hf
      have h1 := List.sum_le_card_nsmul (standards.map f) per (by
        intro x hx
        simp only [List.mem_map] at hx
        obtain ⟨q, _, hq⟩ := hx
        rw [← hq]
        exact hf q)
      rw [List.length_map, ← hm, smul_eq_mul] at h1
      exact h1
    calc A.length + (standards.map _).sum
        ≤ A.length + m * per := Nat.add_le_add_left
          (hsum _ (fun x => truncate_fst_length_le _ _)) _
      _ ≤ max MAX_TOTAL_CHARS (A.length + 5000 * m) := by
          rcases le_or_lt 5000 ((MAX_TOTAL_CHARS - A.length) / m) with hfl | hfl
          · have hper5 : per = (MAX_TOTAL_CHARS - A.length) / m := by
              rw [hper, Nat.max_eq_right hfl]
            refine le_trans ?_ (le_max_left _ _)
            rw [hper5]
            have hdiv : m * ((MAX_TOTAL_CHARS - A.length) / m) ≤ MAX_TOTAL_CHARS - A.length := by
              rw [Nat.mul_comm]
              exact Nat.div_mul_le_self _ _
            omega
          · have hper5 : per = 5000 := by
              rw [hper, Nat.max_eq_left (Nat.le_of_lt hfl)]
            refine le_trans ?_ (le_max_right _ _)
            rw [hper5, Nat.mul_comm]

/-- C7: when the per-file-capped texts already fit in the total ceiling,
or there are no standards, the budgeter returns exactly the normalized
texts capped at the per-file ceiling, with the per-file truncation
flags. -/
theorem truncate_inputs_no_redundant_truncation (a : Str) (standards : List (Str × Str))
    (h : (truncate (normalize_text a) MAX_CHARS_PER_FILE).1.length +
        (standards.map
          (fun p => (truncate (normalize_text p.2) MAX_CHARS_PER_FILE).1.length)).sum ≤
        MAX_TOTAL_CHARS
      ∨ standards = []) :
    truncate_inputs a standards =
      ((truncate (normalize_text a) MAX_CHARS_PER_FILE).1,
       standards.map (fun p => (p.1, (truncate (normalize_text p.2) MAX_CHARS_PER_FILE).1)),
       ⟨MAX_CHARS_PER_FILE, MAX_TOTAL_CHARS,
        (truncate (normalize_text a) MAX_CHARS_PER_FILE).2,
        standards.map (fun p => (p.1, (truncate (normalize_text p.2) MAX_CHARS_PER_FILE).2))⟩) := by
  simp only [truncate_inputs]
  rw [if_pos]
  · simp [List.map_map, Function.comp]
  · rcases h with h | h
    · left
      simpa [List.map_map, Function.comp] using h
    · right
      simp [h]

/-- C7 (witness input): a 1-character agreement and one 1-character
standard are far under both ceilings, so the budgeter returns the capped
texts unchanged. -/
theorem truncate_inputs_no_redundant_truncation_example :
    truncate_inputs ['a'] [(['s'], ['b'])] =
      ((truncate (normalize_text ['a']) MAX_CHARS_PER_FILE).1,
       [(['s'], (truncate (normalize_text ['b']) MAX_CHARS_PER_FILE).1)],
       ⟨MAX_CHARS_PER_FILE, MAX_TOTAL_CHARS,
        (truncate (normalize_text ['a']) MAX_CHARS_PER_FILE).2,
        [(['s'], (truncate (normalize_text ['b']) MAX_CHARS_PER_FILE).2)]⟩) :=
  truncate_inputs_no_redundant_truncation ['a'] [(['s'], ['b'])] (Or.inl (by decide))

/-- C10: every text produced by the budgeter is a prefix of its
normalized input and has length at most the 60,000-character per-file
ceiling; the agreement text is always returned exactly in its
per-file-capped form (phase 2 re-truncates only standard texts). -/
theorem truncate_inputs_prefix_invariant (a : Str) (standards : List (Str × Str)) :
    (truncate_inputs a standards).1 = (truncate (normalize_text a) MAX_CHARS_PER_FILE).1 ∧
    (truncate_inputs a standards).1 <+: normalize_text a ∧
    (truncate_inputs a standards).1.length ≤ MAX_CHARS_PER_FILE ∧
    List.Forall₂ (fun (inp outp : Str × Str) =>
        outp.2 <+: normalize_text inp.2 ∧ outp.2.length ≤ MAX_CHARS_PER_FILE)
      standards (truncate_inputs a standards).2.1 := by
  simp only [truncate_inputs]
  split
  · dsimp only
    refine ⟨rfl, truncate_fst_isPre _ _, truncate_fst_length_le _ _, ?_⟩
    rw [List.map_map, List.forall₂_map_right_iff, List.forall₂_same]
    intro p _
    exact ⟨truncate_fst_isPre _ _, truncate_fst_length_le _ _⟩
  · dsimp only
    refine ⟨rfl, truncate_fst_isPre _ _, truncate_fst_length_le _ _, ?_⟩
    rw [List.map_map, List.map_map, List.forall₂_map_right_iff, List.forall₂_same]
    intro p _
    constructor
    · exact (truncate_fst_isPre _ _).trans (truncate_fst_isPre _ _)
    · exact le_trans (truncate_fst_length_le_self _ _) (truncate_fst_length_le _ _)

/-! ## Spreadsheet templater (`loader_generator.py`, lines 65-135;
`app/models/schemas.py`, class `ExcelOutputPlan`) -/

/-- `ExcelOutputPlan` (schemas.py lines 39-49).  Rates are modelled as
rationals; the pydantic validators (`direction ∈ {TI,TO}`, date pattern,
`rate ≥ 0`, non-empty strings) are constraints on well-formed plans and
are not needed by the templater theorems, which hold for all field
values. -/
structure ExcelOutputPlan where
  direction : Str
  client_tadig : Str
  partner_tadig : Str
  start_date : Str
  end_date : Str
  currency : Str
  sms_mo_rate : ℚ
  sms_mt_rate : ℚ
  is_discount : Bool
  filename : Str
deriving DecidableEq

/-- Row and column constants (loader_generator.py lines 67-73).  Columns
are single letters in the source ("J35" etc.), modelled as characters. -/
def SMS_MO_ROW : Nat := 35

def SMS_MT_ROW : Nat := 53

def SMS_RATE_COL : Char := 'J'

def SMS_DISCOUNT_COL : Char := 'I'

def SMS_CURRENCY_COL : Char := 'H'

def SMS_INITIAL_FEE_COL : Char := 'L'

def SMS_CHARGING_INTERVAL_COL : Char := 'K'

/-- The named groups captured by `FILENAME_PATTERN`
(loader_generator.py lines 74-76). -/
structure ParsedFilename where
  client : Str
  partner : Str
  direction : Str
  start : Str
  endD : Str
deriving DecidableEq

/-- `[A-Za-z0-9]`, the character class of the TADIG groups. -/
def isTadigChar (c : Char) : Bool := c.isAlpha || c.isDigit

/-- Split a string at every underscore (auxiliary for the filename
pattern). -/
def splitUnderscore : Str → List Str
  | [] => [[]]
  | c :: rest =>
    match splitUnderscore rest with
    | [] => [[]]
    | h :: t => if c = '_' then [] :: h :: t else (c :: h) :: t

/-- Matching against `FILENAME_PATTERN`
(`^(?P<client>[A-Za-z0-9]+)_(?P<partner>[A-Za-z0-9]+)_(?P<direction>TI|TO)_(?P<start>\d{8})_(?P<end>\d{8})_D\.xlsx$`,
loader_generator.py lines 74-76).  Because every repeated group excludes
the underscore, the regex matches exactly when splitting the name at
underscores yields six segments of the shapes checked here, so the
split-based parse is equivalent to the regex (digits are modelled as
ASCII digits). -/
def parseFilename (name : Str) : Option ParsedFilename :=
  match splitUnderscore name with
  | [client, partner, dir, s, e, last] =>
    if client ≠ [] ∧ client.all isTadigChar ∧
       partner ≠ [] ∧ partner.all isTadigChar ∧
       (dir = "TI".toList ∨ dir = "TO".toList) ∧
       s.length = 8 ∧ s.all Char.isDigit ∧
       e.length = 8 ∧ e.all Char.isDigit ∧
       last = "D.xlsx".toList
    then some ⟨client, partner, dir, s, e⟩ else none
  | _ => none

/-- Python `date.replace("-", "")`: drop every dash
(loader_generator.py lines 110-111). -/
def stripDashes (s : Str) : Str := s.filter (fun c => c ≠ '-')

/-- The three fatal 422 rejections of `_generate_excel_from_template`
(lines 98-116): pattern failure, direction mismatch, date mismatch. -/
inductive TemplErr where
  | invalid_filename
  | direction_mismatch
  | date_mismatch
deriving DecidableEq

/-- The validation prefix of `_generate_excel_from_template`
(lines 98-116): match the filename against the pattern, then require the
captured direction to equal `plan.direction` and the captured date
digits to equal the plan dates with dashes stripped.  The captured
client and partner TADIGs are not compared against the plan. -/
def validate_filename (plan : ExcelOutputPlan) : Except TemplErr ParsedFilename :=
  match parseFilename plan.filename with
  | none => .error .invalid_filename
  | some m =>
    if m.direction ≠ plan.direction then .error .direction_mismatch
    else if m.start ≠ stripDashes plan.start_date ∨ m.endD ≠ stripDashes plan.end_date then
      .error .date_mismatch
    else .ok m

/-- A cell address: column letter and row index, as in `ws["J35"]`. -/
abbrev Cell := Char × Nat

/-- Values written by the templater: strings (currency, the cleared
initial fee ""), the 1/0 discount integer, the rate number, and `None`
for the cleared off-peak cells. -/
inductive CellVal where
  | str : Str → CellVal
  | int : Int → CellVal
  | num : ℚ → CellVal
  | none : CellVal
deriving DecidableEq

/-- A worksheet: cell values plus cell fill colors (openpyxl
`PatternFill.fgColor`). -/
structure Workbook where
  val : Cell → CellVal
  fill : Cell → Option Str

def setVal (ws : Workbook) (c : Cell) (v : CellVal) : Workbook :=
  { ws with val := fun c2 => if c2 = c then v else ws.val c2 }

def setFill (ws : Workbook) (c : Cell) (f : Option Str) : Workbook :=
  { ws with fill := fun c2 => if c2 = c then f else ws.fill c2 }

/-- `PatternFill(fill_type="solid", fgColor="FFFF00")` (line 123). -/
def highlightFill : Option Str := some "FFFF00".toList

/-- `_write_sms_row` (lines 83-94): set currency, 1/0 discount flag,
rate, clear the initial-fee cell, highlight the rate and
charging-interval cells, and clear the off-peak cells P, Q, R. -/
def write_sms_row (ws : Workbook) (row_idx : Nat) (rate : ℚ) (currency : Str)
    (is_discount : Bool) : Workbook :=
  let ws := setVal ws (SMS_CURRENCY_COL, row_idx) (.str currency)
  let ws := setVal ws (SMS_DISCOUNT_COL, row_idx) (.int (if is_discount then 1 else 0))
  let ws := setVal ws (SMS_RATE_COL, row_idx) (.num rate)
  let ws := setVal ws (SMS_INITIAL_FEE_COL, row_idx) (.str [])
  let ws := setFill ws (SMS_RATE_COL, row_idx) highlightFill
  let ws := setFill ws (SMS_CHARGING_INTERVAL_COL, row_idx) highlightFill
  let ws := setVal ws ('P', row_idx) .none
  let ws := setVal ws ('Q', row_idx) .none
  setVal ws ('R', row_idx) .none

/-- Filesystem side effects of `_generate_excel_from_template`, in
program order: `dest_path.parent.mkdir`, `shutil.copy`, `wb.save`. -/
inductive FsEvent where
  | mkdirParents
  | copyTemplate
  | saveWorkbook
deriving DecidableEq

/-- `_generate_excel_from_template` (lines 97-135): validate the
filename (any failure raises before the copy, so the event list is
empty), then copy the template, write the partner TADIG into C2, write
the SMS-MO row at row 35, and write the SMS-MT row at row 53 only when
`plan.sms_mt_rate` is truthy and positive
(`if plan.sms_mt_rate and plan.sms_mt_rate > 0`). -/
def generate_excel_from_template (template : Workbook) (plan : ExcelOutputPlan) :
    Except TemplErr Workbook × List FsEvent :=
  match validate_filename plan with
  | .error e => (.error e, [])
  | .ok _ =>
    let ws := template
    let ws := setVal ws ('C', 2) (.str plan.partner_tadig)
    let ws := write_sms_row ws SMS_MO_ROW plan.sms_mo_rate plan.currency plan.is_discount
    let ws := if plan.sms_mt_rate ≠ 0 ∧ 0 < plan.sms_mt_rate then
        write_sms_row ws SMS_MT_ROW plan.sms_mt_rate plan.currency plan.is_discount
      else ws
    (.ok ws, [.mkdirParents, .copyTemplate, .saveWorkbook])

/-! ### Claims C1 and C6 about the templater -/

instance {E A : Type} [DecidableEq E] [DecidableEq A] : DecidableEq (Except E A) := fun x y =>
  match x, y with
  | .ok a, .ok b =>
    if h : a = b then .isTrue (by rw [h]) else .isFalse (by intro hc; cases hc; exact h rfl)
  | .error a, .error b =>
    if h : a = b then .isTrue (by rw [h]) else .isFalse (by intro hc; cases hc; exact h rfl)
  | .ok _, .error _ => .isFalse (by intro hc; cases hc)
  | .error _, .ok _ => .isFalse (by intro hc; cases hc)

theorem setVal_val (ws : Workbook) (c : Cell) (v : CellVal) (c2 : Cell) :
    (setVal ws c v).val c2 = if c2 = c then v else ws.val c2 := rfl

theorem setVal_fill (ws : Workbook) (c : Cell) (v : CellVal) (c2 : Cell) :
    (setVal ws c v).fill c2 = ws.fill c2 := rfl

theorem setFill_val (ws : Workbook) (c : Cell) (f : Option Str) (c2 : Cell) :
    (setFill ws c f).val c2 = ws.val c2 := rfl

theorem setFill_fill (ws : Workbook) (c : Cell) (f : Option Str) (c2 : Cell) :
    (setFill ws c f).fill c2 = if c2 = c then f else ws.fill c2 := rfl

/-- A plan whose filename encodes a different client TADIG (`XXXX`) than
the plan field (`ABCD`); direction and dates agree. -/
def c1MismatchPlan : ExcelOutputPlan :=
  { direction := "TI".toList
    client_tadig := "ABCD".toList
    partner_tadig := "WXYZ".toList
    start_date := "2024-01-01".toList
    end_date := "2024-12-31".toList
    currency := "EUR".toList
    sms_mo_rate := 1
    sms_mt_rate := 0
    is_discount := true
    filename := "XXXX_WXYZ_TI_20240101_20241231_D.xlsx".toList }

/-- C1 (counterexample): the validation accepts `c1MismatchPlan` even
though the client TADIG parsed from the filename (`XXXX`) differs from
`plan.client_tadig` (`ABCD`): the client and partner segments are never
compared against the plan fields, so a client/partner mismatch is not
rejected. -/
theorem validate_filename_accepts_client_mismatch :
    validate_filename c1MismatchPlan =
      .ok ⟨"XXXX".toList, "WXYZ".toList, "TI".toList, "20240101".toList, "20241231".toList⟩ ∧
    "XXXX".toList ≠ c1MismatchPlan.client_tadig := by
  constructor
  · decide
  · decide

/-- C1 (amended): for every plan the templater accepts, the filename
parses under the fixed pattern and its direction and both 8-digit dates
(dashes stripped) equal the plan fields; any pattern failure or
direction/date mismatch is rejected with a fatal error before the
template is copied and before any cell is written (the effect list is
empty).  The client and partner TADIG segments are parsed but not
compared against `plan.client_tadig`/`plan.partner_tadig`. -/
theorem validate_filename_spec (template : Workbook) (plan : ExcelOutputPlan) :
    (∀ m, validate_filename plan = .ok m →
      parseFilename plan.filename = some m ∧
      m.direction = plan.direction ∧
      m.start = stripDashes plan.start_date ∧
      m.endD = stripDashes plan.end_date) ∧
    (∀ e, validate_filename plan = .error e →
      generate_excel_from_template template plan = (.error e, [])) := by
  constructor
  · intro m hm
    unfold validate_filename at hm
    split at hm
    · cases hm
    · rename_i m2 hp
      by_cases h1 : m2.direction ≠ plan.direction
      · rw [if_pos h1] at hm
        cases hm
      · rw [if_neg h1] at hm
        push_neg at h1
        by_cases h2 : m2.start ≠ stripDashes plan.start_date ∨
            m2.endD ≠ stripDashes plan.end_date
        · rw [if_pos h2] at hm
          cases hm
        · rw [if_neg h2] at hm
          push_neg at h2
          cases hm
          exact ⟨hp, h1, h2.1, h2.2⟩
  · intro e he
    unfold generate_excel_from_template
    rw [he]

/-- A well-formed plan matching its filename, used to witness the
accepting branch of `validate_filename_spec`. -/
def c1GoodPlan : ExcelOutputPlan :=
  { direction := "TI".toList
    client_tadig := "ABCD".toList
    partner_tadig := "WXYZ".toList
    start_date := "2024-01-01".toList
    end_date := "2024-12-31".toList
    currency := "EUR".toList
    sms_mo_rate := 1
    sms_mt_rate := 0
    is_discount := true
    filename := "ABCD_WXYZ_TI_20240101_20241231_D.xlsx".toList }

def c1GoodParsed : ParsedFilename :=
  ⟨"ABCD".toList, "WXYZ".toList, "TI".toList, "20240101".toList, "20241231".toList⟩

/-- An empty template worksheet for witnesses. -/
def templateWb : Workbook := ⟨fun _ => CellVal.none, fun _ => Option.none⟩

/-- C1 witness: the amended theorem applied to `c1GoodPlan`, whose
validation succeeds. -/
theorem validate_filename_spec_witness :
    parseFilename c1GoodPlan.filename = some c1GoodParsed ∧
    c1GoodParsed.direction = c1GoodPlan.direction ∧
    c1GoodParsed.start = stripDashes c1GoodPlan.start_date ∧
    c1GoodParsed.endD = stripDashes c1GoodPlan.end_date :=
  (validate_filename_spec templateWb c1GoodPlan).1 c1GoodParsed (by decide)

/-- C6: for every plan that passes filename validation, the templater
copies the template (events `mkdirParents, copyTemplate, saveWorkbook`),
writes the partner TADIG into C2, writes the SMS-MO row at row 35
(currency, 1/0 discount flag, rate, cleared initial-fee cell, cleared
off-peak cells P/Q/R), and writes the SMS-MT row at row 53 if and only
if `plan.sms_mt_rate > 0`: when it is not positive, every cell of row 53
keeps its template value and fill. -/
theorem generate_excel_writes (template : Workbook) (plan : ExcelOutputPlan)
    (m : ParsedFilename) (h : validate_filename plan = .ok m) :
    ∃ ws, generate_excel_from_template template plan =
        (.ok ws, [.mkdirParents, .copyTemplate, .saveWorkbook]) ∧
      ws.val ('C', 2) = .str plan.partner_tadig ∧
      ws.val (SMS_CURRENCY_COL, SMS_MO_ROW) = .str plan.currency ∧
      ws.val (SMS_DISCOUNT_COL, SMS_MO_ROW) = .int (if plan.is_discount then 1 else 0) ∧
      ws.val (SMS_RATE_COL, SMS_MO_ROW) = .num plan.sms_mo_rate ∧
      ws.val (SMS_INITIAL_FEE_COL, SMS_MO_ROW) = .str [] ∧
      ws.val ('P', SMS_MO_ROW) = .none ∧
      ws.val ('Q', SMS_MO_ROW) = .none ∧
      ws.val ('R', SMS_MO_ROW) = .none ∧
      (0 < plan.sms_mt_rate →
        ws.val (SMS_CURRENCY_COL, SMS_MT_ROW) = .str plan.currency ∧
        ws.val (SMS_DISCOUNT_COL, SMS_MT_ROW) = .int (if plan.is_discount then 1 else 0) ∧
        ws.val (SMS_RATE_COL, SMS_MT_ROW) = .num plan.sms_mt_rate ∧
        ws.val (SMS_INITIAL_FEE_COL, SMS_MT_ROW) = .str [] ∧
        ws.val ('P', SMS_MT_ROW) = .none ∧
        ws.val ('Q', SMS_MT_ROW) = .none ∧
        ws.val ('R', SMS_MT_ROW) = .none) ∧
      (¬ 0 < plan.sms_mt_rate →
        (∀ col, ws.val (col, SMS_MT_ROW) = template.val (col, SMS_MT_ROW)) ∧
        (∀ col, ws.fill (col, SMS_MT_ROW) = template.fill (col, SMS_MT_ROW))) := by
  unfold generate_excel_from_template
  rw [h]
  dsimp only
  by_cases hmt : plan.sms_mt_rate ≠ 0 ∧ 0 < plan.sms_mt_rate
  · rw [if_pos hmt]
    refine ⟨_, rfl, ?_, ?_, ?_, ?_, ?_, ?_, ?_, ?_, ?_, ?_⟩ <;>
      simp [write_sms_row, setVal_val, setVal_fill, setFill_val, setFill_fill,
        SMS_CURRENCY_COL, SMS_DISCOUNT_COL, SMS_RATE_COL, SMS_INITIAL_FEE_COL,
        SMS_CHARGING_INTERVAL_COL, SMS_MO_ROW, SMS_MT_ROW]
    intro hneg
    exact absurd hmt.2 (not_lt.mpr hneg)
  · rw [if_neg hmt]
    refine ⟨_, rfl, ?_, ?_, ?_, ?_, ?_, ?_, ?_, ?_, ?_, ?_⟩ <;>
      simp [write_sms_row, setVal_val, setVal_fill, setFill_val, setFill_fill,
        SMS_CURRENCY_COL, SMS_DISCOUNT_COL, SMS_RATE_COL, SMS_INITIAL_FEE_COL,
        SMS_CHARGING_INTERVAL_COL, SMS_MO_ROW, SMS_MT_ROW]
    intro h0
    exact absurd ⟨ne_of_gt h0, h0⟩ hmt

/-- C6 witness input: the plan of spec scenario C (`sms_mt_rate = 0`). -/
def c6Plan : ExcelOutputPlan :=
  { direction := "TI".toList
    client_tadig := "ABCD".toList
    partner_tadig := "WXYZ".toList
    start_date := "2024-01-01".toList
    end_date := "2024-12-31".toList
    currency := "EUR".toList
    sms_mo_rate := 1
    sms_mt_rate := 0
    is_discount := true
    filename := "ABCD_WXYZ_TI_20240101_20241231_D.xlsx".toList }

def c6Parsed : ParsedFilename :=
  ⟨"ABCD".toList, "WXYZ".toList, "TI".toList, "20240101".toList, "20241231".toList⟩

/-- C6 witness: the theorem applied to `c6Plan`, whose validation
succeeds. -/
theorem generate_excel_writes_witness :
    ∃ ws, generate_excel_from_template templateWb c6Plan =
        (.ok ws, [.mkdirParents, .copyTemplate, .saveWorkbook]) ∧
      ws.val ('C', 2) = .str c6Plan.partner_tadig ∧
      ws.val (SMS_CURRENCY_COL, SMS_MO_ROW) = .str c6Plan.currency ∧
      ws.val (SMS_DISCOUNT_COL, SMS_MO_ROW) = .int (if c6Plan.is_discount then 1 else 0) ∧
      ws.val (SMS_RATE_COL, SMS_MO_ROW) = .num c6Plan.sms_mo_rate ∧
      ws.val (SMS_INITIAL_FEE_COL, SMS_MO_ROW) = .str [] ∧
      ws.val ('P', SMS_MO_ROW) = .none ∧
      ws.val ('Q', SMS_MO_ROW) = .none ∧
      ws.val ('R', SMS_MO_ROW) = .none ∧
      (0 < c6Plan.sms_mt_rate →
        ws.val (SMS_CURRENCY_COL, SMS_MT_ROW) = .str c6Plan.currency ∧
        ws.val (SMS_DISCOUNT_COL, SMS_MT_ROW) = .int (if c6Plan.is_discount then 1 else 0) ∧
        ws.val (SMS_RATE_COL, SMS_MT_ROW) = .num c6Plan.sms_mt_rate ∧
        ws.val (SMS_INITIAL_FEE_COL, SMS_MT_ROW) = .str [] ∧
        ws.val ('P', SMS_MT_ROW) = .none ∧
        ws.val ('Q', SMS_MT_ROW) = .none ∧
        ws.val ('R', SMS_MT_ROW) = .none) ∧
      (¬ 0 < c6Plan.sms_mt_rate →
        (∀ col, ws.val (col, SMS_MT_ROW) = templateWb.val (col, SMS_MT_ROW)) ∧
        (∀ col, ws.fill (col, SMS_MT_ROW) = templateWb.fill (col, SMS_MT_ROW))) :=
  generate_excel_writes templateWb c6Plan c6Parsed (by decide)

/-! ## Output versioner (`app/utils/files.py`, lines 118-130) -/

/-- The candidate directory names tried by
`create_versioned_output_dir`: `base_name`, then `base_name_v2` …
`base_name_v9999` (`[base_name] + [f"{base_name}_v{i}" for i in range(2, 10_000)]`,
files.py line 121). -/
def candidate_names (base_name : Str) : List Str :=
  base_name :: (List.range' 2 9998).map (fun i => base_name ++ "_v".toList ++ Nat.toDigits 10 i)

/-- `create_versioned_output_dir(parent, base_name)` (files.py
lines 118-130), modelled over the set of directory names already
existing under the parent: the loop attempts
`p.mkdir(parents=True, exist_ok=False)` on each candidate in order, so
exclusive creation succeeds exactly on the first candidate not yet
present; `none` models the final `RuntimeError` raised when every
candidate already exists. -/
def create_versioned_output_dir (existing : List Str) (base_name : Str) : Option Str :=
  (candidate_names base_name).find? (fun n => !(decide (n ∈ existing)))

theorem find?_first {A : Type} (p : A → Bool) :
    ∀ (l : List A) (a : A), l.find? p = some a →
      ∃ l1 l2, l = l1 ++ a :: l2 ∧ p a = true ∧ ∀ x ∈ l1, p x = false := by
  intro l
  induction l with
  | nil => intro a h; cases h
  | cons x xs ih =>
    intro a h
    cases hp : p x with
    | true =>
      rw [List.find?_cons_of_pos _ hp] at h
      cases h
      exact ⟨[], xs, rfl, hp, by intro y hy; cases hy⟩
    | false =>
      rw [List.find?_cons_of_neg _ (by rw [hp]; exact Bool.false_ne_true)] at h
      obtain ⟨l1, l2, hl, hpa, hall⟩ := ih a h
      refine ⟨x :: l1, l2, by rw [hl]; rfl, hpa, ?_⟩
      intro y hy
      cases hy with
      | head => exact hp
      | tail _ hy2 => exact hall y hy2

/-- C5: `create_versioned_output_dir` returns the first name in the
candidate sequence that does not yet exist (every earlier candidate
exists), fails exactly when every candidate exists, and a second
allocation performed after the first (with the first result now
existing) never returns the same path. -/
theorem create_versioned_output_dir_spec (existing : List Str) (base_name : Str) :
    (∀ n, create_versioned_output_dir existing base_name = some n →
      n ∉ existing ∧
      ∃ l1 l2, candidate_names base_name = l1 ++ n :: l2 ∧ ∀ x ∈ l1, x ∈ existing) ∧
    (create_versioned_output_dir existing base_name = none ↔
      ∀ n ∈ candidate_names base_name, n ∈ existing) ∧
    (∀ n n2, create_versioned_output_dir existing base_name = some n →
      create_versioned_output_dir (n :: existing) base_name = some n2 → n2 ≠ n) := by
  refine ⟨?_, ?_, ?_⟩
  · intro n hn
    have hp := List.find?_some hn
    rw [Bool.not_eq_eq_eq_not, Bool.not_true, decide_eq_false_iff_not] at hp
    obtain ⟨l1, l2, hl, _, hall⟩ := find?_first _ _ _ hn
    refine ⟨hp, l1, l2, hl, ?_⟩
    intro x hx
    have := hall x hx
    rw [Bool.not_eq_eq_eq_not, Bool.not_false, decide_eq_true_eq] at this
    exact this
  · unfold create_versioned_output_dir
    rw [List.find?_eq_none]
    constructor
    · intro h n hn
      have := h n hn
      rw [Bool.not_eq_eq_eq_not, Bool.not_true, decide_eq_false_iff_not, not_not] at this
      exact this
    · intro h n hn
      rw [Bool.not_eq_eq_eq_not, Bool.not_true, decide_eq_false_iff_not, not_not]
      exact h n hn
  · intro n n2 _ h2
    have hp := List.find?_some h2
    rw [Bool.not_eq_eq_eq_not, Bool.not_true, decide_eq_false_iff_not] at hp
    intro he
    exact hp (he ▸ List.mem_cons_self n existing)

/-- C5 witness: with no existing directories the base name itself is
allocated, and after it exists a second allocation returns a different
path (`o_v2`). -/
theorem create_versioned_output_dir_spec_witness :
    (['o'] ∉ ([] : List Str) ∧
      ∃ l1 l2, candidate_names ['o'] = l1 ++ ['o'] :: l2 ∧ ∀ x ∈ l1, x ∈ ([] : List Str)) ∧
    ['o', '_', 'v', '2'] ≠ ['o'] :=
  ⟨(create_versioned_output_dir_spec [] ['o']).1 ['o'] (by decide),
   (create_versioned_output_dir_spec [] ['o']).2.2 ['o'] ['o', '_', 'v', '2']
     (by decide) (by decide)⟩

/-! ## Generation client (`app/services/openai_client.py`) -/

/-- The `usage` object returned by the external API: a plain dict, an
object with `model_dump`, or an arbitrary object read attribute by
attribute (`_usage_to_dict`, openai_client.py lines 11-22). -/
inductive UsageObj where
  | dict (d : List (Str × Nat))
  | modelDump (d : List (Str × Nat))
  | attrs (prompt_tokens completion_tokens total_tokens : Option Nat)

/-- `_usage_to_dict(usage)` (lines 11-22): `None` stays `None`, dicts
and `model_dump()` results pass through, otherwise the three token
attributes are collected and an empty result becomes `None`
(`return out or None`), so a usage-extraction failure is non-fatal. -/
def usage_to_dict : Option UsageObj → Option (List (Str × Nat))
  | Option.none => Option.none
  | some (.dict d) => some d
  | some (.modelDump d) => some d
  | some (.attrs p c t) =>
    let out :=
      (match p with | some v => [("prompt_tokens".toList, v)] | Option.none => []) ++
      (match c with | some v => [("completion_tokens".toList, v)] | Option.none => []) ++
      (match t with | some v => [("total_tokens".toList, v)] | Option.none => [])
    if out = [] then Option.none else some out

/-- Outcome of one `client.chat.completions.create` call, with an
abstract cause type `C` for the exception payloads: `APITimeoutError`,
other `OpenAIError`, any other exception (network errors), or a
response with its content and usage object. -/
inductive AttemptOutcome (C : Type) where
  | timeout (cause : C)
  | apiErr (cause : C)
  | transport (cause : C)
  | success (content : Str) (usage : Option UsageObj)

/-- The classified errors raised after retries are exhausted
(openai_client.py lines 68-82): 504 for a timeout, 502 "OpenAI API
error" for an `OpenAIError`, 502 "OpenAI call failed" for any other
exception; each carries the underlying cause. -/
inductive GenErr (C : Type) where
  | timeout (cause : C)
  | apiError (cause : C)
  | transportError (cause : C)

def isSuccess {C : Type} : AttemptOutcome C → Bool
  | .success _ _ => true
  | _ => false

/-- The result of the final loop iteration (`attempt == retries`):
a success returns the stripped content and best-effort usage, a failure
raises the classified error carrying this last cause. -/
def classify_last {C : Type} : AttemptOutcome C →
    Except (GenErr C) (Str × Option (List (Str × Nat)))
  | .timeout c => .error (.timeout c)
  | .apiErr c => .error (.apiError c)
  | .transport c => .error (.transportError c)
  | .success content usage => .ok (stripWs content, usage_to_dict usage)

/-- The `for attempt in range(retries + 1)` loop of
`generate_json_object` (lines 53-82): `fuel` counts the attempts still
allowed after the current one (`fuel = retries - attempt`), so
`attempt < retries` is `fuel > 0`; each failed attempt with fuel left
continues to the next oracle outcome.  The second component counts the
calls made. -/
def genLoop {C : Type} (oracle : Nat → AttemptOutcome C) :
    Nat → Nat → Except (GenErr C) (Str × Option (List (Str × Nat))) × Nat
  | attempt, 0 => (classify_last (oracle attempt), attempt + 1)
  | attempt, fuel + 1 =>
    match oracle attempt with
    | .success content usage => (.ok (stripWs content, usage_to_dict usage), attempt + 1)
    | _ => genLoop oracle (attempt + 1) fuel

/-- `generate_json_object(model, system_prompt, user_prompt, retries)`
(lines 43-85), with the network modelled as an oracle giving the outcome
of each attempt: run the loop from attempt 0 with `retries` further
attempts allowed.  The trailing "should never reach here" raise is
unreachable (the last iteration always returns) and has no counterpart. -/
def generate_json_object {C : Type} (oracle : Nat → AttemptOutcome C) (retries : Nat) :
    Except (GenErr C) (Str × Option (List (Str × Nat))) × Nat :=
  genLoop oracle 0 retries

theorem genLoop_calls_le {C : Type} (oracle : Nat → AttemptOutcome C) :
    ∀ (fuel attempt : Nat), (genLoop oracle attempt fuel).2 ≤ attempt + fuel + 1 := by
  intro fuel
  induction fuel with
  | zero => intro attempt; exact le_rfl
  | succ f ih =>
    intro attempt
    unfold genLoop
    cases oracle attempt with
    | success c u => simp
    | timeout c => exact le_trans (ih (attempt + 1)) (by omega)
    | apiErr c => exact le_trans (ih (attempt + 1)) (by omega)
    | transport c => exact le_trans (ih (attempt + 1)) (by omega)

theorem genLoop_first_success {C : Type} (oracle : Nat → AttemptOutcome C)
    (k : Nat) (content : Str) (usage : Option UsageObj)
    (hk : oracle k = .success content usage) :
    ∀ (fuel attempt : Nat), attempt ≤ k → k ≤ attempt + fuel →
      (∀ i, attempt ≤ i → i < k → isSuccess (oracle i) = false) →
      genLoop oracle attempt fuel = (.ok (stripWs content, usage_to_dict usage), k + 1) := by
  intro fuel
  induction fuel with
  | zero =>
    intro attempt h1 h2 _
    have hak : attempt = k := by omega
    subst hak
    unfold genLoop
    rw [hk]
    rfl
  | succ f ih =>
    intro attempt h1 h2 hfail
    by_cases hak : attempt = k
    · subst hak
      unfold genLoop
      rw [hk]
    · have hlt : attempt < k := by omega
      have hf := hfail attempt le_rfl hlt
      unfold genLoop
      cases ho : oracle attempt with
      | success c u => rw [ho] at hf; cases hf
      | timeout c =>
        exact ih (attempt + 1) (by omega) (by omega)
          (fun i hi1 hi2 => hfail i (by omega) hi2)
      | apiErr c =>
        exact ih (attempt + 1) (by omega) (by omega)
          (fun i hi1 hi2 => hfail i (by omega) hi2)
      | transport c =>
        exact ih (attempt + 1) (by omega) (by omega)
          (fun i hi1 hi2 => hfail i (by omega) hi2)

theorem genLoop_all_fail {C : Type} (oracle : Nat → AttemptOutcome C) :
    ∀ (fuel attempt : Nat),
      (∀ i, attempt ≤ i → i ≤ attempt + fuel → isSuccess (oracle i) = false) →
      genLoop oracle attempt fuel = (classify_last (oracle (attempt + fuel)), attempt + fuel + 1) := by
  intro fuel
  induction fuel with
  | zero => intro attempt _; rfl
  | succ f ih =>
    intro attempt hfail
    have hf := hfail attempt le_rfl (by omega)
    unfold genLoop
    cases ho : oracle attempt with
    | success c u => rw [ho] at hf; cases hf
    | timeout c =>
      rw [ih (attempt + 1) (fun i hi1 hi2 => hfail i (by omega) (by omega)),
        show attempt + 1 + f = attempt + (f + 1) by omega]
    | apiErr c =>
      rw [ih (attempt + 1) (fun i hi1 hi2 => hfail i (by omega) (by omega)),
        show attempt + 1 + f = attempt + (f + 1) by omega]
    | transport c =>
      rw [ih (attempt + 1) (fun i hi1 hi2 => hfail i (by omega) (by omega)),
        show attempt + 1 + f = attempt + (f + 1) by omega]

/-- C8: `generate_json_object` makes at most `retries + 1` sequential
calls; if the first success is attempt `k ≤ retries` it stops there and
returns the stripped content with the best-effort usage summary; if all
`retries + 1` attempts fail it returns the error classified from the
last outcome (timeout vs API error vs transport failure), carrying the
last cause; and a usage object with none of the token attributes yields
`None` usage rather than an error. -/
theorem generate_json_object_spec {C : Type} (oracle : Nat → AttemptOutcome C) (retries : Nat) :
    (generate_json_object oracle retries).2 ≤ retries + 1 ∧
    (∀ k content usage, k ≤ retries →
      (∀ i, i < k → isSuccess (oracle i) = false) →
      oracle k = .success content usage →
      generate_json_object oracle retries =
        (.ok (stripWs content, usage_to_dict usage), k + 1)) ∧
    ((∀ i, i ≤ retries → isSuccess (oracle i) = false) →
      generate_json_object oracle retries =
        (classify_last (oracle retries), retries + 1)) ∧
    usage_to_dict (some (.attrs Option.none Option.none Option.none)) = Option.none := by
  refine ⟨?_, ?_, ?_, rfl⟩
  · have := genLoop_calls_le oracle retries 0
    unfold generate_json_object
    omega
  · intro k content usage hk hfail hsucc
    exact genLoop_first_success oracle k content usage hsucc retries 0 (by omega) (by omega)
      (fun i _ hi2 => hfail i hi2)
  · intro hfail
    have := genLoop_all_fail oracle retries 0 (fun i hi1 hi2 => hfail i (by omega))
    unfold generate_json_object
    rw [this, show (0 : Nat) + retries = retries by omega]

/-- A concrete oracle for the C8 witness: attempt 0 times out, attempt 1
succeeds with padded content and an attribute-less usage object. -/
def c8Oracle : Nat → AttemptOutcome Nat := fun i =>
  if i = 0 then .timeout 7
  else .success " ok ".toList (some (.attrs Option.none Option.none Option.none))

/-- C8 witness: with one timeout followed by a success, the client
retries once and returns the stripped content with `None` usage after
two calls. -/
theorem generate_json_object_spec_witness :
    generate_json_object c8Oracle 2 =
      (.ok (stripWs " ok ".toList,
        usage_to_dict (some (.attrs Option.none Option.none Option.none))), 2) :=
  (generate_json_object_spec c8Oracle 2).2.1 1 " ok ".toList
    (some (.attrs Option.none Option.none Option.none)) (by omega)
    (by
      intro i hi
      have h0 : i = 0 := by omega
      subst h0
      rfl)
    (by rfl)

/-! ## Loader data model (`app/models/schemas.py`) and base-name
sanitizer (`app/utils/files.py`, lines 39-47) -/

/-- A JSON value, the element type of the model-generated
`loader_fields: Dict[str, Any]` mapping. -/
inductive JsonVal where
  | null
  | bool (b : Bool)
  | num (q : ℚ)
  | str (s : Str)
  | arr (xs : List JsonVal)
  | obj (fields : List (Str × JsonVal))

/-- `LoaderMapping` (schemas.py lines 31-36). -/
structure LoaderMapping where
  clause_id : Str
  clause_text : Str
  matched_standard : Option Str
  confidence : ℚ
  loader_fields : List (Str × JsonVal)

/-- `LoaderOutput` (schemas.py lines 52-58). -/
structure LoaderOutput where
  agreement_name : Str
  standards_used : List Str
  mappings : List LoaderMapping
  missing_fields : List Str
  notes : Str
  excel_outputs : List ExcelOutputPlan

/-- The `summary` dict assembled at loader_generator.py lines 355-361. -/
structure Summary where
  agreement_name : Str
  standards_used : List Str
  mappings_count : Nat
  missing_fields_count : Nat
  excel_files_count : Nat

/-- `GenerateLoaderResponse` (schemas.py lines 61-67). -/
structure GenerateLoaderResponse where
  output_dir : Str
  loader_json_path : Str
  loader_txt_path : Option Str
  loader_excel_paths : List Str
  meta_json_path : Str
  summary : Summary

/-- Split at the first occurrence of `"__"` (Python
`stored_filename.split("__", 1)`). -/
def splitOnce2U : Str → Option (Str × Str)
  | '_' :: '_' :: rest => some ([], rest)
  | c :: rest => (splitOnce2U rest).map (fun p => (c :: p.1, p.2))
  | [] => Option.none

/-- The final path component (pathlib takes the name before the stem). -/
def lastComponent (s : Str) : Str :=
  (s.reverse.takeWhile (fun c => c ≠ '/')).reverse

/-- `Path(original).stem`: the name without its suffix; pathlib keeps
the name whole unless the last dot sits strictly inside it
(`0 < i < len(name) - 1`). -/
def pathStem (s : Str) : Str :=
  let name := lastComponent s
  let revAfter := name.reverse.takeWhile (fun c => c ≠ '.')
  if revAfter.length = name.length then name
  else
    let i := name.length - revAfter.length - 1
    if 0 < i ∧ i < name.length - 1 then name.take i else name

/-- The character class `[A-Za-z0-9._-]` kept by the sanitizer. -/
def allowedBaseChar (c : Char) : Bool :=
  c.isAlpha || c.isDigit || c = '.' || c = '_' || c = '-'

/-- `re.sub(r"[^A-Za-z0-9._-]+", "_", stem)`: replace each maximal run
of disallowed characters by a single underscore. -/
def subDisallowed : Str → Str
  | [] => []
  | c :: rest =>
    if allowedBaseChar c then c :: subDisallowed rest
    else '_' :: subDisallowed (rest.dropWhile (fun c2 => !allowedBaseChar c2))
termination_by s => s.length
decreasing_by
  · simp only [List.length_cons]
    omega
  · simp only [List.length_cons]
    have := (List.dropWhile_sublist (fun c2 => !allowedBaseChar c2) (l := rest)).length_le
    omega

/-- Python `str.strip(chars)`: drop the given characters from both
ends. -/
def stripSet (s : Str) (chars : List Char) : Str :=
  ((s.dropWhile (fun c => decide (c ∈ chars))).reverse.dropWhile
    (fun c => decide (c ∈ chars))).reverse

/-- `safe_agreement_base_name(stored_filename, agreement_id)`
(files.py lines 39-47). -/
def safe_agreement_base_name (stored_filename agreement_id : Str) : Str :=
  let original :=
    if (agreement_id ++ "__".toList) <+: stored_filename then
      match splitOnce2U stored_filename with
      | some p => p.2
      | Option.none => stored_filename
    else stored_filename
  let stem := stripSet (subDisallowed (pathStem original)) ['.', '_', '-']
  if stem = [] then "agreement".toList else stem

/-! ## Orchestrator (`loader_generator.py`, lines 186-206 and 221-370),
modelled from the point where all input texts have been extracted.  The
external collaborators are parameters: `parse` stands for
`_parse_and_validate_loader_json` (json.loads plus pydantic validation,
both library calls), and `call_oracle i` gives the result of the i-th
`generate_json_object` invocation of the run. -/

/-- `_build_user_prompt` (lines 186-206). -/
def build_user_prompt (agreement_filename agreement_text : Str)
    (standards : List (Str × Str)) : Str :=
  let standards_text := List.intercalate "\n\n".toList
    (standards.map (fun p => "--- STANDARD FILE: ".toList ++ p.1 ++ " ---\n".toList ++ p.2))
  "Agreement filename: ".toList ++ agreement_filename ++
  "\n\nAgreement text:\n".toList ++ agreement_text ++
  "\n\nStandard IOT texts (each labeled by filename):\n".toList ++ standards_text ++
  "\n\nInstruction:\nGenerate loader mapping between agreement clauses and standard templates.\nReturn JSON matching the required schema exactly.\n".toList

/-- The repair prompt built at lines 265-269: the fixed instruction
followed by the previous (invalid) output. -/
def fix_prompt (raw_json : Str) : Str :=
  "The previous output was invalid JSON or did not match the required schema.\n".toList ++
  "Return ONLY the corrected JSON object (no markdown, no commentary).\n\nPrevious output:\n".toList ++
  raw_json ++ "\n".toList

/-- The shape of `meta["openai_usage"]` after lines 276-279: the first
call's usage alone, the `{"first_call", "retry_call"}` pair, or
`{"retry_call"}` alone. -/
inductive UsageMeta (U : Type) where
  | first (u : U)
  | both (first_call retry_call : U)
  | retryOnly (retry_call : U)

/-- Lines 276-279: `if usage and usage2: both; elif usage2: retry only;
else usage unchanged`.  Python truthiness of the usage dicts is
modelled by presence (`Option`). -/
def combine_usage {U : Type} : Option U → Option U → Option (UsageMeta U)
  | some u1, some u2 => some (.both u1 u2)
  | Option.none, some u2 => some (.retryOnly u2)
  | u1, Option.none => u1.map .first

/-- The observable side effects of a run, in program order. -/
inductive RunEvent where
  | genCall (user_prompt : Str) (retries : Nat)
  | allocDir (name : Str)
  | writeLoaderJson (dir : Str)
  | writeExcel (dir : Str) (filename : Str)
  | writeMetaJson (dir : Str)
deriving DecidableEq

/-- The fatal outcomes of `generate_loader_artifacts`: a propagated
client error, 502 after the failed repair (carrying the repair error and
the first error, line 285-288), 422 for empty `excel_outputs`
(line 290-291), 400 for a missing template source (line 307-309), the
versioner's `RuntimeError`, and a 422 from the templater. -/
inductive RunErr (C : Type) where
  | gen (e : GenErr C)
  | invalidAfterRetry (last_error first_error : Str)
  | noExcelOutputs
  | noTemplate
  | outputAlloc
  | templ (e : TemplErr)

/-- The outcome of a run: the returned response or fatal error, the
side-effect trace, and the final value of the `usage` variable (what
`meta["openai_usage"]` records when the journal is written). -/
structure RunOutcome (C U : Type) where
  result : Except (RunErr C) GenerateLoaderResponse
  events : List RunEvent
  usage : Option (UsageMeta U)

/-- The per-plan loop of lines 311-315: each plan is templated with the
same template source; the first failure aborts the rest but keeps the
artifacts already written. -/
def process_plans {C : Type} (template : Workbook) (dir : Str) :
    List ExcelOutputPlan → Except (RunErr C) (List Str) × List RunEvent
  | [] => (.ok [], [])
  | plan :: rest =>
    match generate_excel_from_template template plan with
    | (.error e, _) => (.error (.templ e), [])
    | (.ok _, _) =>
      match process_plans (C := C) template dir rest with
      | (.error e2, evs) => (.error e2, .writeExcel dir plan.filename :: evs)
      | (.ok paths, evs) =>
        (.ok ((dir ++ "/".toList ++ plan.filename) :: paths),
         .writeExcel dir plan.filename :: evs)

/-- Lines 290-361, everything after a `LoaderOutput` has been
validated: fail on empty `excel_outputs` before any directory is
allocated; allocate the versioned directory; write `loader.json`; fail
without a template source; write every Excel plan; write `meta.json`
and return the response. -/
def after_validation {C : Type} (template : Workbook)
    (agreement_name agreement_id : Str) (standards0 : List (Str × Str))
    (existing : List Str) (loader : LoaderOutput) :
    Except (RunErr C) GenerateLoaderResponse × List RunEvent :=
  if loader.excel_outputs = [] then (.error .noExcelOutputs, [])
  else
    let agreement_base := safe_agreement_base_name agreement_name agreement_id
    match create_versioned_output_dir existing agreement_base with
    | Option.none => (.error .outputAlloc, [])
    | some output_dir =>
      let evs0 := [RunEvent.allocDir output_dir, RunEvent.writeLoaderJson output_dir]
      match standards0 with
      | [] => (.error .noTemplate, evs0)
      | _ :: _ =>
        match process_plans (C := C) template output_dir loader.excel_outputs with
        | (.error e, evs) => (.error e, evs0 ++ evs)
        | (.ok excel_paths, evs) =>
          (.ok
            { output_dir := output_dir
              loader_json_path := output_dir ++ "/loader.json".toList
              loader_txt_path := Option.none
              loader_excel_paths := excel_paths
              meta_json_path := output_dir ++ "/meta.json".toList
              summary :=
                { agreement_name := loader.agreement_name
                  standards_used := loader.standards_used
                  mappings_count := loader.mappings.length
                  missing_fields_count := loader.missing_fields.length
                  excel_files_count := excel_paths.length } },
           evs0 ++ evs ++ [RunEvent.writeMetaJson output_dir])

/-- `generate_loader_artifacts` (lines 221-370) from line 243 on, after
text extraction: budget the texts, build the user prompt, make the
first generation call with `retries=2`; on validation failure make
exactly one repair call with the repair prompt and `retries=1`, combine
the usage records, and fail with both errors if the repair output is
also invalid; otherwise continue with the validated output. -/
def generate_loader_artifacts {C U : Type}
    (parse : Str → Except Str LoaderOutput)
    (call_oracle : Nat → Except (GenErr C) (Str × Option U))
    (template : Workbook)
    (agreement_name agreement_text : Str)
    (standards0 : List (Str × Str))
    (agreement_id : Str)
    (existing : List Str) : RunOutcome C U :=
  let tr := truncate_inputs agreement_text standards0
  let user_prompt := build_user_prompt agreement_name tr.1 tr.2.1
  let ev1 := RunEvent.genCall user_prompt 2
  match call_oracle 0 with
  | .error e => ⟨.error (.gen e), [ev1], Option.none⟩
  | .ok (raw_json, usage) =>
    match parse raw_json with
    | .ok loader =>
      let r := after_validation (C := C) template agreement_name agreement_id
        standards0 existing loader
      ⟨r.1, ev1 :: r.2, usage.map .first⟩
    | .error parse_error =>
      let ev2 := RunEvent.genCall (fix_prompt raw_json) 1
      match call_oracle 1 with
      | .error e => ⟨.error (.gen e), [ev1, ev2], usage.map .first⟩
      | .ok (raw_json2, usage2) =>
        let usageC := combine_usage usage usage2
        match parse raw_json2 with
        | .ok loader =>
          let r := after_validation (C := C) template agreement_name agreement_id
            standards0 existing loader
          ⟨r.1, ev1 :: ev2 :: r.2, usageC⟩
        | .error parse_error2 =>
          ⟨.error (.invalidAfterRetry parse_error2 parse_error), [ev1, ev2], usageC⟩

/-! ### Claims C3, C4, C9 about the orchestrator -/

theorem process_plans_no_genCall {C : Type} (template : Workbook) (dir : Str) :
    ∀ (plans : List ExcelOutputPlan) (p : Str) (r : Nat),
      RunEvent.genCall p r ∉ (process_plans (C := C) template dir plans).2 := by
  intro plans
  induction plans with
  | nil => intro p r h; cases h
  | cons plan rest ih =>
    intro p r
    unfold process_plans
    split
    · intro h; cases h
    · split
      · rename_i heq
        intro h
        rw [List.mem_cons] at h
        rcases h with h | h
        · simp at h
        · have := ih p r
          rw [heq] at this
          exact this h
      · rename_i heq
        intro h
        rw [List.mem_cons] at h
        rcases h with h | h
        · simp at h
        · have := ih p r
          rw [heq] at this
          exact this h

theorem after_validation_no_genCall {C : Type} (template : Workbook)
    (agreement_name agreement_id : Str) (standards0 : List (Str × Str))
    (existing : List Str) (loader : LoaderOutput) (p : Str) (r : Nat) :
    RunEvent.genCall p r ∉ (after_validation (C := C) template agreement_name agreement_id
      standards0 existing loader).2 := by
  simp only [after_validation]
  split
  · intro h; cases h
  · split
    · intro h; cases h
    · split
      · intro h
        simp at h
      · split
        · rename_i x odir hodir stds0 hd tl pp e evs heq2
          intro h
          rw [List.mem_append] at h
          rcases h with h | h
          · simp at h
          · have hpp := process_plans_no_genCall (C := C) template odir
              loader.excel_outputs p r
            rw [heq2] at hpp
            exact hpp h
        · rename_i x odir hodir stds0 hd tl pp paths evs heq2
          intro h
          rw [List.mem_append, List.mem_append] at h
          rcases h with (h | h) | h
          · simp at h
          · have hpp := process_plans_no_genCall (C := C) template odir
              loader.excel_outputs p r
            rw [heq2] at hpp
            exact hpp h
          · simp at h

/-- C4: when the validated `LoaderOutput` has an empty `excel_outputs`
list — whether validation succeeded on the first output or on the
repair output — the run fails with the "no excel outputs" fault and the
event trace holds only the generation calls: no directory is allocated
and no artifact file is written. -/
theorem no_excel_outputs_aborts {C U : Type}
    (parse : Str → Except Str LoaderOutput)
    (call_oracle : Nat → Except (GenErr C) (Str × Option U))
    (template : Workbook) (agreement_name agreement_text : Str)
    (standards0 : List (Str × Str)) (agreement_id : Str) (existing : List Str)
    (raw1 : Str) (u1 : Option U) (loader : LoaderOutput)
    (hcall0 : call_oracle 0 = .ok (raw1, u1))
    (hempty : loader.excel_outputs = []) :
    (parse raw1 = .ok loader →
      (generate_loader_artifacts parse call_oracle template agreement_name agreement_text
        standards0 agreement_id existing).result = .error .noExcelOutputs ∧
      (generate_loader_artifacts parse call_oracle template agreement_name agreement_text
        standards0 agreement_id existing).events =
        [RunEvent.genCall (build_user_prompt agreement_name
          (truncate_inputs agreement_text standards0).1
          (truncate_inputs agreement_text standards0).2.1) 2]) ∧
    (∀ err1 raw2 u2, parse raw1 = .error err1 → call_oracle 1 = .ok (raw2, u2) →
      parse raw2 = .ok loader →
      (generate_loader_artifacts parse call_oracle template agreement_name agreement_text
        standards0 agreement_id existing).result = .error .noExcelOutputs ∧
      (generate_loader_artifacts parse call_oracle template agreement_name agreement_text
        standards0 agreement_id existing).events =
        [RunEvent.genCall (build_user_prompt agreement_name
          (truncate_inputs agreement_text standards0).1
          (truncate_inputs agreement_text standards0).2.1) 2,
         RunEvent.genCall (fix_prompt raw1) 1]) := by
  have hav : after_validation (C := C) template agreement_name agreement_id standards0
      existing loader = (.error .noExcelOutputs, []) := by
    unfold after_validation
    rw [if_pos hempty]
  constructor
  · intro hparse
    unfold generate_loader_artifacts
    rw [hcall0]
    simp only [hparse, hav]
    exact ⟨trivial, trivial⟩
  · intro err1 raw2 u2 hparse1 hcall1 hparse2
    unfold generate_loader_artifacts
    rw [hcall0]
    simp only [hparse1, hcall1, hparse2, hav]
    exact ⟨trivial, trivial⟩

/-- C3: when the first output fails parsing/validation, the run makes
exactly one repair call — the second and last generation call — whose
user prompt is the fixed correction instruction with the original
invalid output embedded, at the reduced retry budget 1 (the first call
uses 2).  If the repair output validates, the run proceeds exactly as
the post-validation pipeline on the repaired output and records both
calls' usage (labelled first/retry when both are present); if the
repair output also fails, the run fails fatally reporting the repair
error and the original error, with no further generation call. -/
theorem repair_loop_spec {C U : Type}
    (parse : Str → Except Str LoaderOutput)
    (call_oracle : Nat → Except (GenErr C) (Str × Option U))
    (template : Workbook) (agreement_name agreement_text : Str)
    (standards0 : List (Str × Str)) (agreement_id : Str) (existing : List Str)
    (raw1 : Str) (u1 : Option U) (err1 : Str)
    (hcall0 : call_oracle 0 = .ok (raw1, u1))
    (hbad : parse raw1 = .error err1) :
    let run := generate_loader_artifacts parse call_oracle template agreement_name
      agreement_text standards0 agreement_id existing
    let ev1 := RunEvent.genCall (build_user_prompt agreement_name
      (truncate_inputs agreement_text standards0).1
      (truncate_inputs agreement_text standards0).2.1) 2
    let ev2 := RunEvent.genCall (fix_prompt raw1) 1
    raw1 <:+: fix_prompt raw1 ∧
    (∃ rest, run.events = ev1 :: ev2 :: rest ∧
      ∀ p r, RunEvent.genCall p r ∉ rest) ∧
    (∀ raw2 u2 loader, call_oracle 1 = .ok (raw2, u2) → parse raw2 = .ok loader →
      run.result = (after_validation (C := C) template agreement_name agreement_id
        standards0 existing loader).1 ∧
      run.events = ev1 :: ev2 :: (after_validation (C := C) template agreement_name
        agreement_id standards0 existing loader).2 ∧
      run.usage = combine_usage u1 u2 ∧
      (∀ v1 v2, u1 = some v1 → u2 = some v2 →
        run.usage = some (.both v1 v2))) ∧
    (∀ raw2 u2 err2, call_oracle 1 = .ok (raw2, u2) → parse raw2 = .error err2 →
      run.result = .error (.invalidAfterRetry err2 err1) ∧
      run.events = [ev1, ev2] ∧
      run.usage = combine_usage u1 u2) := by
  intro run ev1 ev2
  have hrun : run = generate_loader_artifacts parse call_oracle template agreement_name
      agreement_text standards0 agreement_id existing := rfl
  refine ⟨?_, ?_, ?_, ?_⟩
  · exact ⟨"The previous output was invalid JSON or did not match the required schema.\n".toList ++
      "Return ONLY the corrected JSON object (no markdown, no commentary).\n\nPrevious output:\n".toList,
      "\n".toList, by simp [fix_prompt]⟩
  · rw [hrun]
    unfold generate_loader_artifacts
    rw [hcall0]
    simp only [hbad]
    cases hc1 : call_oracle 1 with
    | error e => exact ⟨[], rfl, by intro p r h; cases h⟩
    | ok p2 =>
      cases hp2 : parse p2.1 with
      | ok loader =>
        refine ⟨(after_validation (C := C) template agreement_name agreement_id
          standards0 existing loader).2, by simp [hp2], ?_⟩
        intro p r
        exact after_validation_no_genCall template agreement_name agreement_id
          standards0 existing loader p r
      | error e2 => exact ⟨[], by simp [hp2], by intro p r h; cases h⟩
  · intro raw2 u2 loader hc1 hgood
    rw [hrun]
    unfold generate_loader_artifacts
    rw [hcall0]
    simp only [hbad, hc1, hgood]
    refine ⟨trivial, trivial, trivial, ?_⟩
    intro v1 v2 hv1 hv2
    subst hv1
    subst hv2
    rfl
  · intro raw2 u2 err2 hc1 hbad2
    rw [hrun]
    unfold generate_loader_artifacts
    rw [hcall0]
    simp only [hbad, hc1, hbad2]
    exact ⟨trivial, trivial, trivial⟩

/-- C9: the usage metadata returned by the generation calls never
influences control flow: two runs whose call oracles agree on success
or failure, errors, and raw response texts — differing only in the
usage values, which may even live in different types — produce the same
result (success or failure, response paths, summary) and the same event
trace; only the recorded usage can differ. -/
theorem usage_never_influences_control_flow {C U1 U2 : Type}
    (parse : Str → Except Str LoaderOutput)
    (o1 : Nat → Except (GenErr C) (Str × Option U1))
    (o2 : Nat → Except (GenErr C) (Str × Option U2))
    (template : Workbook) (agreement_name agreement_text : Str)
    (standards0 : List (Str × Str)) (agreement_id : Str) (existing : List Str)
    (h : ∀ i, (o1 i).map Prod.fst = (o2 i).map Prod.fst) :
    (generate_loader_artifacts parse o1 template agreement_name agreement_text standards0
      agreement_id existing).result =
      (generate_loader_artifacts parse o2 template agreement_name agreement_text standards0
        agreement_id existing).result ∧
    (generate_loader_artifacts parse o1 template agreement_name agreement_text standards0
      agreement_id existing).events =
      (generate_loader_artifacts parse o2 template agreement_name agreement_text standards0
        agreement_id existing).events := by
  have h0 := h 0
  have h1 := h 1
  unfold generate_loader_artifacts
  cases ho1 : o1 0 with
  | error e1 =>
    cases ho2 : o2 0 with
    | error e2 =>
      rw [ho1, ho2] at h0
      simp only [Except.map] at h0
      injection h0 with he
      subst he
      exact ⟨rfl, rfl⟩
    | ok p2 =>
      rw [ho1, ho2] at h0
      simp [Except.map] at h0
  | ok p1 =>
    cases ho2 : o2 0 with
    | error e2 =>
      rw [ho1, ho2] at h0
      simp [Except.map] at h0
    | ok p2 =>
      rw [ho1, ho2] at h0
      simp only [Except.map] at h0
      injection h0 with he
      obtain ⟨rawA, w1⟩ := p1
      obtain ⟨rawB, w2⟩ := p2
      have he2 : rawA = rawB := he
      subst he2
      cases hp : parse rawA with
      | ok loader =>
        simp only [hp]
        exact ⟨trivial, trivial⟩
      | error err1 =>
        simp only [hp]
        cases ho1b : o1 1 with
        | error e1b =>
          cases ho2b : o2 1 with
          | error e2b =>
            rw [ho1b, ho2b] at h1
            simp only [Except.map] at h1
            injection h1 with he1
            subst he1
            exact ⟨rfl, rfl⟩
          | ok q2 =>
            rw [ho1b, ho2b] at h1
            simp [Except.map] at h1
        | ok q1 =>
          cases ho2b : o2 1 with
          | error e2b =>
            rw [ho1b, ho2b] at h1
            simp [Except.map] at h1
          | ok q2 =>
            rw [ho1b, ho2b] at h1
            simp only [Except.map] at h1
            injection h1 with he1
            obtain ⟨rawC, y1⟩ := q1
            obtain ⟨rawD, y2⟩ := q2
            have he3 : rawC = rawD := he1
            subst he3
            cases hp2 : parse rawC with
            | ok loader2 =>
              simp only [hp2]
              exact ⟨trivial, trivial⟩
            | error err2 =>
              simp only [hp2]
              exact ⟨trivial, trivial⟩

/-- A validated output with an empty `excel_outputs` list. -/
def c4Loader : LoaderOutput := ⟨[], [], [], [], [], []⟩

/-- A parser that accepts every raw output as `c4Loader`. -/
def c4Parse : Str → Except Str LoaderOutput := fun _ => .ok c4Loader

/-- A call oracle that always returns the same raw text with no usage. -/
def c4Oracle : Nat → Except (GenErr Unit) (Str × Option Unit) :=
  fun _ => .ok (['r'], Option.none)

/-- Concrete run of the empty-`excel_outputs` abort: the oracle returns
a text that validates to a loader with no plans, and the run fails with
the dedicated fault. -/
theorem no_excel_outputs_aborts_witness :
    (generate_loader_artifacts c4Parse c4Oracle templateWb ['a'] ['t']
      ([(['s'], ['x'])] : List (Str × Str)) ['i'] []).result =
      .error .noExcelOutputs :=
  ((no_excel_outputs_aborts c4Parse c4Oracle templateWb ['a'] ['t']
      ([(['s'], ['x'])] : List (Str × Str)) ['i'] [] ['r'] Option.none c4Loader
      rfl rfl).1 rfl).1

/-- A parser that rejects every raw output with the same error text. -/
def c3Parse : Str → Except Str LoaderOutput := fun _ => .error ['e']

/-- A call oracle that always returns the same raw text with usage. -/
def c3Oracle : Nat → Except (GenErr Unit) (Str × Option Unit) :=
  fun _ => .ok (['r'], some ())

/-- Concrete run of the repair loop: both outputs fail validation, so
the run fails fatally carrying the repair error and the first error. -/
theorem repair_loop_spec_witness :
    (generate_loader_artifacts c3Parse c3Oracle templateWb ['a'] ['t']
      ([(['s'], ['x'])] : List (Str × Str)) ['i'] []).result =
      .error (.invalidAfterRetry ['e'] ['e']) :=
  ((repair_loop_spec c3Parse c3Oracle templateWb ['a'] ['t']
      ([(['s'], ['x'])] : List (Str × Str)) ['i'] [] ['r'] (some ()) ['e']
      rfl rfl).2.2.2 ['r'] (some ()) ['e'] rfl rfl).1

/-- A parser rejecting every raw output, for the non-interference run. -/
def c9Parse : Str → Except Str LoaderOutput := fun _ => .error ['f']

/-- A call oracle reporting usage as a number. -/
def c9Oracle1 : Nat → Except (GenErr Unit) (Str × Option Nat) :=
  fun _ => .ok (['r'], some 7)

/-- The same call oracle with the usage changed to a different type. -/
def c9Oracle2 : Nat → Except (GenErr Unit) (Str × Option Unit) :=
  fun _ => .ok (['r'], some ())

/-- Concrete non-interference run: two oracles returning the same texts
but different usage values give the same result and event trace. -/
theorem usage_never_influences_control_flow_witness :
    (generate_loader_artifacts c9Parse c9Oracle1 templateWb ['a'] ['t']
      ([(['s'], ['x'])] : List (Str × Str)) ['i'] []).result =
      (generate_loader_artifacts c9Parse c9Oracle2 templateWb ['a'] ['t']
        ([(['s'], ['x'])] : List (Str × Str)) ['i'] []).result ∧
    (generate_loader_artifacts c9Parse c9Oracle1 templateWb ['a'] ['t']
      ([(['s'], ['x'])] : List (Str × Str)) ['i'] []).events =
      (generate_loader_artifacts c9Parse c9Oracle2 templateWb ['a'] ['t']
        ([(['s'], ['x'])] : List (Str × Str)) ['i'] []).events :=
  usage_never_influences_control_flow c9Parse c9Oracle1 c9Oracle2 templateWb
    ['a'] ['t'] ([(['s'], ['x'])] : List (Str × Str)) ['i'] [] (fun _ => rfl)

end ChatGptLoader
